import Mathlib

set_option linter.unusedVariables false

/-!
Shallow embedding of `src/client/NetdClient.cpp` (the netd client
interception layer).  The external collaborators — libc's socket
primitives, `getsockopt`, the fwmark daemon reached through
`FwmarkClient::send`, and the family predicates
`FwmarkClient::shouldSetFwmark` / `shouldReportConnectComplete` — are
modelled as oracles collected in an `Env` record.  The mutable process
state (errno, the two atomic netId slots, the set of open descriptors)
is threaded explicitly through an `St` record, together with a trace of
externally visible events (daemon exchanges, libc calls, closes) used to
state "no daemon contact" and "original primitive never invoked"
properties.
-/

namespace NetdClient

/-- Modelled from the spec: `NETID_UNSET` comes from `resolv_netid.h`,
which is not part of this repository; the spec identifies the "unset"
sentinel with network id 0. -/
def NETID_UNSET : Nat := 0

/-- Modelled from the spec: the fixed "bad descriptor" error code
(`EBADF`, value 9 on Linux); `errno.h` is not part of this repository. -/
def EBADF : Int := 9

/-- The command kinds of `FwmarkCommand` (from `FwmarkCommand.h`, external
to this repository; the spec lists exactly these seven kinds). -/
inductive CommandId
  | onAccept
  | onConnect
  | onConnectComplete
  | selectNetwork
  | protectFromVpn
  | selectForUser
  | queryUserAccess
  deriving DecidableEq, Repr

/-- The protocol command record: command kind, network id field, uid field. -/
structure FwmarkCommand where
  cmdId : CommandId
  netId : Nat
  uid : Nat
  deriving DecidableEq, Repr

/-- A socket address as the client code inspects it: only the address
family field `sa_family` is ever read by `NetdClient.cpp`. -/
structure Sockaddr where
  sa_family : Int
  deriving DecidableEq, Repr

/-- The `FwmarkConnectInfo` payload attached to `ON_CONNECT_COMPLETE`:
outcome code, elapsed milliseconds, destination address. -/
structure FwmarkConnectInfo where
  error : Int
  latencyMs : Nat
  addr : Sockaddr
  deriving DecidableEq, Repr

/-- Externally visible events of one client call, recorded in order. -/
inductive Event
  | send (cmd : FwmarkCommand) (fd : Int) (info : Option FwmarkConnectInfo)
  | libcSocketCall
  | libcConnectCall (fd : Int)
  | libcAccept4Call
  | getsockoptCall (fd : Int)
  | closeFd (fd : Int)
  deriving DecidableEq, Repr

/-- Oracles for everything outside `NetdClient.cpp`: the daemon's reply,
the errno side effects of external calls, the results of the libc
primitives, the `getsockopt` queries, the stopwatch reading, and the two
address-family predicates of `FwmarkClient` (kept abstract, as the spec
directs). -/
structure Env where
  shouldSetFwmark : Int → Bool
  shouldReportConnectComplete : Int → Bool
  sendStatus : FwmarkCommand → Int → Int
  sendErrno : Int
  libcSocketRet : Int
  libcSocketErrno : Int
  libcConnectRet : Int
  libcConnectErrno : Int
  libcAccept4Ret : Int
  libcAccept4Errno : Int
  soDomain : Int → Except Int Int
  soMark : Int → Except Int Nat
  latencyMs : Nat

/-- Process state threaded through every call: the thread's errno, the
two process-wide atomic netId slots, the open descriptors, and the event
trace. -/
structure St where
  errno : Int
  netIdForProcess : Nat
  netIdForResolv : Nat
  openFds : List Int
  events : List Event
  deriving DecidableEq, Repr

/-- Embeds `close(fd)`: the descriptor stops being open. -/
def St.close (s : St) (fd : Int) : St :=
  { s with
    openFds := s.openFds.filter (fun x => x ≠ fd)
    events := s.events ++ [Event.closeFd fd] }

/-- Embeds `FwmarkClient().send(&command, fd, info)`: one request/response
exchange with the daemon.  It returns the daemon's status and may leave
an arbitrary errno behind (modelled by `env.sendErrno`); the code under
verification must not rely on errno surviving this call. -/
def fwSend (env : Env) (cmd : FwmarkCommand) (fd : Int)
    (info : Option FwmarkConnectInfo) (s : St) : Int × St :=
  (env.sendStatus cmd fd,
   { s with
     errno := env.sendErrno
     events := s.events ++ [Event.send cmd fd info] })

/-- Embeds `libcSocket(domain, type, protocol)`: returns a descriptor or -1,
setting errno on failure; a fresh descriptor becomes open. -/
def libcSocket (env : Env) (s : St) : Int × St :=
  (env.libcSocketRet,
   { s with
     errno := if env.libcSocketRet = -1 then env.libcSocketErrno else s.errno
     openFds :=
       if env.libcSocketRet = -1 then s.openFds
       else env.libcSocketRet :: s.openFds
     events := s.events ++ [Event.libcSocketCall] })

/-- Embeds `libcConnect(sockfd, addr, addrlen)`: returns the primitive's result
and sets the thread's errno to whatever the primitive produced. -/
def libcConnect (env : Env) (sockfd : Int) (s : St) : Int × St :=
  (env.libcConnectRet,
   { s with
     errno := env.libcConnectErrno
     events := s.events ++ [Event.libcConnectCall sockfd] })

/-- Embeds `libcAccept4(sockfd, addr, addrlen, flags)`: returns a new descriptor
or -1, setting errno on failure; a fresh descriptor becomes open. -/
def libcAccept4 (env : Env) (s : St) : Int × St :=
  (env.libcAccept4Ret,
   { s with
     errno := if env.libcAccept4Ret = -1 then env.libcAccept4Errno else s.errno
     openFds :=
       if env.libcAccept4Ret = -1 then s.openFds
       else env.libcAccept4Ret :: s.openFds
     events := s.events ++ [Event.libcAccept4Call] })

/-- Embeds `closeFdAndSetErrno(fd, error)` — NetdClient.cpp lines 57-61. -/
def closeFdAndSetErrno (fd error : Int) (s : St) : Int × St :=
  let s1 := s.close fd
  (-1, { s1 with errno := -error })

/-- Embeds `setNetworkForSocket(netId, socketFd)` — lines 236-242. -/
def setNetworkForSocket (env : Env) (netId : Nat) (socketFd : Int)
    (s : St) : Int × St :=
  if socketFd < 0 then
    (-EBADF, s)
  else
    fwSend env ⟨CommandId.selectNetwork, netId, 0⟩ socketFd none s

/-- Embeds `netdClientSocket(domain, type, protocol)` — lines 129-151 (the
build without `USE_WRAPPER`; `type` and `protocol` are passed to the
primitive, whose result the `Env` oracle supplies). -/
def netdClientSocket (env : Env) (domain type protocol : Int)
    (s : St) : Int × St :=
  let r := libcSocket env s
  let socketFd := r.1
  let s1 := r.2
  if socketFd = -1 then
    (-1, s1)
  else
    let netId := s1.netIdForProcess
    if netId ≠ NETID_UNSET ∧ env.shouldSetFwmark domain then
      let r2 := setNetworkForSocket env netId socketFd s1
      if r2.1 ≠ 0 then
        closeFdAndSetErrno socketFd r2.1 r2.2
      else
        (socketFd, r2.2)
    else
      (socketFd, s1)

/-- The guard of `netdClientConnect` — line 87-88:
`(sockfd >= 0) && addr && FwmarkClient::shouldSetFwmark(addr->sa_family)`. -/
def connectShouldSetFwmark (env : Env) (sockfd : Int)
    (addr : Option Sockaddr) : Bool :=
  decide (0 ≤ sockfd) &&
    (match addr with
     | some a => env.shouldSetFwmark a.sa_family
     | none => false)

/-- Lines 97-126 of `netdClientConnect`: the real connect call, errno
save, optional `ON_CONNECT_COMPLETE` telemetry (result discarded), errno
restore. -/
def netdClientConnectTail (env : Env) (sockfd : Int)
    (addr : Option Sockaddr) (shouldSet : Bool) (s : St) : Int × St :=
  let r := libcConnect env sockfd s
  let ret := r.1
  let connectErrno := r.2.errno
  let s2 :=
    match addr with
    | some a =>
      if shouldSet && env.shouldReportConnectComplete a.sa_family then
        let connectInfo : FwmarkConnectInfo :=
          ⟨if ret = 0 then 0 else connectErrno, env.latencyMs, a⟩
        (fwSend env ⟨CommandId.onConnectComplete, 0, 0⟩ sockfd
          (some connectInfo) r.2).2
      else r.2
    | none => r.2
  (ret, { s2 with errno := connectErrno })

/-- Embeds `netdClientConnect(sockfd, addr, addrlen)` — lines 86-127 (the build
without `USE_WRAPPER`). -/
def netdClientConnect (env : Env) (sockfd : Int)
    (addr : Option Sockaddr) (s : St) : Int × St :=
  let shouldSet := connectShouldSetFwmark env sockfd addr
  if shouldSet then
    let r := fwSend env ⟨CommandId.onConnect, 0, 0⟩ sockfd none s
    if r.1 ≠ 0 then
      (-1, { r.2 with errno := -r.1 })
    else
      netdClientConnectTail env sockfd addr shouldSet r.2
  else
    netdClientConnectTail env sockfd addr shouldSet s

/-- Embeds `netdClientAccept4(sockfd, addr, addrlen, flags)` — lines 63-84. -/
def netdClientAccept4 (env : Env) (sockfd : Int)
    (addr : Option Sockaddr) (s : St) : Int × St :=
  let r := libcAccept4 env s
  let acceptedSocket := r.1
  let s1 := r.2
  if acceptedSocket = -1 then
    (-1, s1)
  else
    match addr with
    | some a =>
      accept4Mark env acceptedSocket a.sa_family s1
    | none =>
      match env.soDomain acceptedSocket with
      | Except.error e =>
        let s2 := { s1 with
          errno := e
          events := s1.events ++ [Event.getsockoptCall acceptedSocket] }
        closeFdAndSetErrno acceptedSocket (-s2.errno) s2
      | Except.ok family =>
        let s2 := { s1 with
          events := s1.events ++ [Event.getsockoptCall acceptedSocket] }
        accept4Mark env acceptedSocket family s2
where
  /-- Lines 77-83: the `ON_ACCEPT` notification once the family is known. -/
  accept4Mark (env : Env) (acceptedSocket : Int) (family : Int)
      (s : St) : Int × St :=
    if env.shouldSetFwmark family then
      let r := fwSend env ⟨CommandId.onAccept, 0, 0⟩ acceptedSocket none s
      if r.1 ≠ 0 then
        closeFdAndSetErrno acceptedSocket r.1 r.2
      else
        (acceptedSocket, r.2)
    else
      (acceptedSocket, s)

/-- Embeds `getNetworkForResolv(netId)` — lines 153-162. -/
def getNetworkForResolv (s : St) (netId : Nat) : Nat :=
  if netId ≠ NETID_UNSET then
    netId
  else if s.netIdForProcess ≠ NETID_UNSET then
    s.netIdForProcess
  else
    s.netIdForResolv

/-- Which of the two process-wide slots `setNetworkForTarget` writes. -/
inductive Target
  | process
  | resolv
  deriving DecidableEq, Repr

/-- Read the slot a `Target` designates. -/
def St.readTarget (s : St) : Target → Nat
  | Target.process => s.netIdForProcess
  | Target.resolv => s.netIdForResolv

/-- Write the slot a `Target` designates. -/
def St.writeTarget (s : St) (t : Target) (v : Nat) : St :=
  match t with
  | Target.process => { s with netIdForProcess := v }
  | Target.resolv => { s with netIdForResolv := v }

/-- Embeds `setNetworkForTarget(netId, target)` — lines 164-187.  The probe
socket is created by calling `libcSocket` directly (bypassing the
wrapper), marked via `setNetworkForSocket`, and closed either way. -/
def setNetworkForTarget (env : Env) (netId : Nat) (t : Target)
    (s : St) : Int × St :=
  if netId = NETID_UNSET then
    (0, s.writeTarget t netId)
  else
    let r := libcSocket env s
    let socketFd := r.1
    let s1 := r.2
    if socketFd < 0 then
      (-s1.errno, s1)
    else
      let r2 := setNetworkForSocket env netId socketFd s1
      let s2 := if r2.1 = 0 then r2.2.writeTarget t netId else r2.2
      (r2.1, s2.close socketFd)

/-- Embeds `setNetworkForProcess(netId)` — lines 244-246. -/
def setNetworkForProcess (env : Env) (netId : Nat) (s : St) : Int × St :=
  setNetworkForTarget env netId Target.process s

/-- Embeds `setNetworkForResolv(netId)` — lines 248-250. -/
def setNetworkForResolv (env : Env) (netId : Nat) (s : St) : Int × St :=
  setNetworkForTarget env netId Target.resolv s

/-- Embeds `getNetworkForProcess()` — lines 232-234. -/
def getNetworkForProcess (s : St) : Nat :=
  s.netIdForProcess

/-- Embeds `getNetworkForSocket(netId*, socketFd)` — lines 219-230.  The out
parameter becomes an `Option Nat` result component; `netIdPtrValid`
models whether the caller passed a non-null pointer.  The `Fwmark`
bit-field decode is external to this repository, so the `soMark` oracle
yields the mark's netId sub-field directly. -/
def getNetworkForSocket (env : Env) (netIdPtrValid : Bool)
    (socketFd : Int) (s : St) : Int × Option Nat × St :=
  if !netIdPtrValid || socketFd < 0 then
    (-EBADF, none, s)
  else
    match env.soMark socketFd with
    | Except.error e =>
      (-e, none,
       { s with
         errno := e
         events := s.events ++ [Event.getsockoptCall socketFd] })
    | Except.ok netId =>
      (0, some netId,
       { s with events := s.events ++ [Event.getsockoptCall socketFd] })

/-- Embeds `protectFromVpn(socketFd)` — lines 252-258. -/
def protectFromVpn (env : Env) (socketFd : Int) (s : St) : Int × St :=
  if socketFd < 0 then
    (-EBADF, s)
  else
    fwSend env ⟨CommandId.protectFromVpn, 0, 0⟩ socketFd none s

/-- Embeds `setNetworkForUser(uid, socketFd)` — lines 260-266. -/
def setNetworkForUser (env : Env) (uid : Nat) (socketFd : Int)
    (s : St) : Int × St :=
  if socketFd < 0 then
    (-EBADF, s)
  else
    fwSend env ⟨CommandId.selectForUser, 0, uid⟩ socketFd none s

/-- Embeds `queryUserAccess(uid, netId)` — lines 268-271: sent with fd -1,
i.e. no attached descriptor. -/
def queryUserAccess (env : Env) (uid : Nat) (netId : Nat)
    (s : St) : Int × St :=
  fwSend env ⟨CommandId.queryUserAccess, netId, uid⟩ (-1) none s

/-- Recognise daemon exchanges in the trace. -/
def Event.isSend : Event → Bool
  | Event.send _ _ _ => true
  | _ => false

/-- Recognise calls to the original connect primitive in the trace. -/
def Event.isLibcConnect : Event → Bool
  | Event.libcConnectCall _ => true
  | _ => false

/-- Recognise `ON_CONNECT_COMPLETE` exchanges in the trace. -/
def Event.isConnectCompleteSend : Event → Bool
  | Event.send c _ _ => c.cmdId = CommandId.onConnectComplete
  | _ => false

/-- Concrete oracle environment for witness instantiations: families 2
(IPv4) and 10 (IPv6) qualify for marking and for completion reporting,
every libc primitive succeeds, and the daemon denies every command with
status -13. -/
def envDeny : Env where
  shouldSetFwmark := fun f => f = 2 || f = 10
  shouldReportConnectComplete := fun f => f = 2 || f = 10
  sendStatus := fun _ _ => -13
  sendErrno := 99
  libcSocketRet := 3
  libcSocketErrno := 24
  libcConnectRet := -1
  libcConnectErrno := 111
  libcAccept4Ret := 4
  libcAccept4Errno := 11
  soDomain := fun _ => Except.ok 2
  soMark := fun _ => Except.ok 42
  latencyMs := 7

/-- Variant of `envDeny` whose daemon accepts every command. -/
def envAllow : Env :=
  { envDeny with sendStatus := fun _ _ => 0 }

/-- Variant of `envDeny` whose daemon accepts `ON_CONNECT` but fails the
`ON_CONNECT_COMPLETE` telemetry with -7, and whose real connect succeeds. -/
def envTele : Env :=
  { envDeny with
    sendStatus := fun c _ => if c.cmdId = CommandId.onConnect then 0 else -7
    libcConnectRet := 0 }

/-- Initial state with both network slots unset. -/
def st0 : St where
  errno := 0
  netIdForProcess := NETID_UNSET
  netIdForResolv := NETID_UNSET
  openFds := []
  events := []

/-- Initial state with the process slot pinned to network 7 and the
resolver slot pinned to network 9. -/
def st7 : St :=
  { st0 with netIdForProcess := 7, netIdForResolv := 9 }

/-- Claim C4: `getNetworkForResolv` returns the explicit identifier when
it is not the unset sentinel, else the process-pinned network when that
slot is set, else the resolver-pinned network (which is the sentinel when
everything is unset); on explicit=5, process=7, resolver=9 it yields 5,
with explicit unset it yields 7, with explicit and process unset it
yields 9, and with all three unset it yields the sentinel. -/
theorem getNetworkForResolv_precedence (s : St) (netId : Nat) :
    (netId ≠ NETID_UNSET → getNetworkForResolv s netId = netId) ∧
    (netId = NETID_UNSET → s.netIdForProcess ≠ NETID_UNSET →
      getNetworkForResolv s netId = s.netIdForProcess) ∧
    (netId = NETID_UNSET → s.netIdForProcess = NETID_UNSET →
      getNetworkForResolv s netId = s.netIdForResolv) ∧
    getNetworkForResolv { s with netIdForProcess := 7, netIdForResolv := 9 } 5 = 5 ∧
    getNetworkForResolv { s with netIdForProcess := 7, netIdForResolv := 9 }
      NETID_UNSET = 7 ∧
    getNetworkForResolv { s with netIdForProcess := NETID_UNSET, netIdForResolv := 9 }
      NETID_UNSET = 9 ∧
    getNetworkForResolv
      { s with netIdForProcess := NETID_UNSET, netIdForResolv := NETID_UNSET }
      NETID_UNSET = NETID_UNSET := by
  refine ⟨fun h => ?_, fun h hp => ?_, fun h hp => ?_, ?_, ?_, ?_, ?_⟩ <;>
    simp_all [getNetworkForResolv, NETID_UNSET]

/-- Witness for C4 at concrete inputs. -/
theorem getNetworkForResolv_precedence_witness :
    getNetworkForResolv st7 5 = 5 ∧
    getNetworkForResolv st7 NETID_UNSET = st7.netIdForProcess :=
  ⟨(getNetworkForResolv_precedence st7 5).1 (by decide),
   (getNetworkForResolv_precedence st7 NETID_UNSET).2.1 rfl (by decide)⟩

/-- Claim C7: every socket-descriptor-validating entry point
(`setNetworkForSocket`, `protectFromVpn`, `setNetworkForUser`,
`getNetworkForSocket`), given a negative descriptor, returns the fixed
bad-descriptor error code `-EBADF` with the state — in particular the
daemon-exchange trace — unchanged. -/
theorem negativeFd_fastReject (env : Env) (uid netId : Nat)
    (socketFd : Int) (s : St) (h : socketFd < 0) :
    setNetworkForSocket env netId socketFd s = (-EBADF, s) ∧
    protectFromVpn env socketFd s = (-EBADF, s) ∧
    setNetworkForUser env uid socketFd s = (-EBADF, s) ∧
    getNetworkForSocket env true socketFd s = (-EBADF, none, s) := by
  refine ⟨?_, ?_, ?_, ?_⟩ <;>
    simp [setNetworkForSocket, protectFromVpn, setNetworkForUser,
      getNetworkForSocket, h]

/-- Witness for C7 at descriptor -3. -/
theorem negativeFd_fastReject_witness :
    setNetworkForSocket envDeny 7 (-3) st0 = (-EBADF, st0) ∧
    protectFromVpn envDeny (-3) st0 = (-EBADF, st0) ∧
    setNetworkForUser envDeny 0 (-3) st0 = (-EBADF, st0) ∧
    getNetworkForSocket envDeny true (-3) st0 = (-EBADF, none, st0) :=
  negativeFd_fastReject envDeny 0 7 (-3) st0 (by decide)

/-- Claim C9: `queryUserAccess` returns the daemon's status for a
`QUERY_USER_ACCESS` command carrying the given netId and uid unchanged,
and the one exchange it performs attaches no descriptor (fd encoded as
-1) and no payload. -/
theorem queryUserAccess_noDescriptor (env : Env) (uid netId : Nat) (s : St) :
    (queryUserAccess env uid netId s).1
      = env.sendStatus ⟨CommandId.queryUserAccess, netId, uid⟩ (-1) ∧
    (queryUserAccess env uid netId s).2.events
      = s.events
        ++ [Event.send ⟨CommandId.queryUserAccess, netId, uid⟩ (-1) none] := by
  constructor <;> rfl

/-- Claim C1: when the original socket primitive succeeds but a process
network is pinned, the domain qualifies for marking, and the
`SELECT_NETWORK` mark-apply returns a nonzero status, `netdClientSocket`
returns -1, sets errno to the negation of that status and closes the new
descriptor; when no network is pinned or the domain does not qualify, the
descriptor is returned with no daemon exchange added to the trace. -/
theorem netdClientSocket_markFailure_spec (env : Env)
    (domain type protocol : Int) (s : St) (hfd : 0 ≤ env.libcSocketRet) :
    (s.netIdForProcess ≠ NETID_UNSET → env.shouldSetFwmark domain = true →
      env.sendStatus ⟨CommandId.selectNetwork, s.netIdForProcess, 0⟩
          env.libcSocketRet ≠ 0 →
      (netdClientSocket env domain type protocol s).1 = -1 ∧
      (netdClientSocket env domain type protocol s).2.errno
        = -(env.sendStatus ⟨CommandId.selectNetwork, s.netIdForProcess, 0⟩
            env.libcSocketRet) ∧
      env.libcSocketRet
        ∉ (netdClientSocket env domain type protocol s).2.openFds) ∧
    (s.netIdForProcess = NETID_UNSET ∨ env.shouldSetFwmark domain = false →
      (netdClientSocket env domain type protocol s).1 = env.libcSocketRet ∧
      (netdClientSocket env domain type protocol s).2.events.filter Event.isSend
        = s.events.filter Event.isSend) := by
  have hne : ¬ env.libcSocketRet = -1 := by omega
  have hnlt : ¬ env.libcSocketRet < 0 := by omega
  constructor
  · intro hpin hq herr
    simp [netdClientSocket, libcSocket, setNetworkForSocket, fwSend,
      closeFdAndSetErrno, St.close, hne, hnlt, hpin, hq, herr,
      List.mem_filter]
  · rintro (h | h) <;>
      simp [netdClientSocket, libcSocket, hne, h, List.filter_append,
        Event.isSend]

/-- Witness for C1: pinned process network 7, qualifying domain 2, daemon
denial -13. -/
theorem netdClientSocket_markFailure_spec_witness :
    (netdClientSocket envDeny 2 1 0 st7).1 = -1 ∧
    (netdClientSocket envDeny 2 1 0 st7).2.errno
      = -(envDeny.sendStatus
          ⟨CommandId.selectNetwork, st7.netIdForProcess, 0⟩
          envDeny.libcSocketRet) ∧
    envDeny.libcSocketRet ∉ (netdClientSocket envDeny 2 1 0 st7).2.openFds :=
  (netdClientSocket_markFailure_spec envDeny 2 1 0 st7 (by decide)).1
    (by decide) (by decide) (by decide)

/-- Claim C3: `setNetworkForTarget` (the common body of
`setNetworkForProcess` and `setNetworkForResolv`) clears the designated
slot and returns 0 when given the unset sentinel; otherwise, provided the
probe socket is created, it returns the probe's `SELECT_NETWORK` status,
stores the netId into the slot exactly when that status is 0, and leaves
the slot unchanged on a nonzero status. -/
theorem setNetworkForTarget_pin_spec (env : Env) (netId : Nat)
    (t : Target) (s : St) :
    (netId = NETID_UNSET →
      setNetworkForTarget env netId t s = (0, s.writeTarget t NETID_UNSET)) ∧
    (netId ≠ NETID_UNSET → 0 ≤ env.libcSocketRet →
      (setNetworkForTarget env netId t s).1
        = env.sendStatus ⟨CommandId.selectNetwork, netId, 0⟩
            env.libcSocketRet ∧
      (setNetworkForTarget env netId t s).2.readTarget t
        = (if env.sendStatus ⟨CommandId.selectNetwork, netId, 0⟩
              env.libcSocketRet = 0
           then netId else s.readTarget t)) := by
  constructor
  · intro h
    simp [setNetworkForTarget, h]
  · intro h hfd
    have hnlt : ¬ env.libcSocketRet < 0 := by omega
    cases t <;>
      by_cases h0 : env.sendStatus ⟨CommandId.selectNetwork, netId, 0⟩
          env.libcSocketRet = 0 <;>
        simp [setNetworkForTarget, libcSocket, setNetworkForSocket, fwSend,
          St.close, St.writeTarget, St.readTarget, h, hnlt, h0]

/-- Witness for C3: pinning network 7 on the process slot against the
denying daemon leaves the slot unchanged and returns the denial. -/
theorem setNetworkForTarget_pin_spec_witness :
    (setNetworkForTarget envDeny 7 Target.process st0).1
      = envDeny.sendStatus ⟨CommandId.selectNetwork, 7, 0⟩
          envDeny.libcSocketRet ∧
    (setNetworkForTarget envDeny 7 Target.process st0).2.readTarget
        Target.process
      = (if envDeny.sendStatus ⟨CommandId.selectNetwork, 7, 0⟩
            envDeny.libcSocketRet = 0
         then 7 else st0.readTarget Target.process) :=
  (setNetworkForTarget_pin_spec envDeny 7 Target.process st0).2
    (by decide) (by decide)

/-- The tail of the wrapped connect always returns the real connect
primitive's result and restores the real connect's errno, whatever the
telemetry exchange does. -/
theorem netdClientConnectTail_result (env : Env) (sockfd : Int)
    (addr : Option Sockaddr) (shouldSet : Bool) (s : St) :
    (netdClientConnectTail env sockfd addr shouldSet s).1
      = env.libcConnectRet ∧
    (netdClientConnectTail env sockfd addr shouldSet s).2.errno
      = env.libcConnectErrno := by
  cases addr with
  | none => simp [netdClientConnectTail, libcConnect]
  | some a =>
    by_cases h : (shouldSet && env.shouldReportConnectComplete a.sa_family)
        = true <;>
      simp [netdClientConnectTail, libcConnect, fwSend, h]

/-- The tail of the wrapped connect adds no `ON_CONNECT_COMPLETE`
exchange when the destination family does not qualify for completion
reporting. -/
theorem netdClientConnectTail_noCompletion (env : Env) (sockfd : Int)
    (addr : Option Sockaddr) (shouldSet : Bool) (s : St)
    (hno : ∀ a, addr = some a →
      env.shouldReportConnectComplete a.sa_family = false) :
    (netdClientConnectTail env sockfd addr shouldSet s).2.events.filter
        Event.isConnectCompleteSend
      = s.events.filter Event.isConnectCompleteSend := by
  cases addr with
  | none =>
    simp [netdClientConnectTail, libcConnect, List.filter_append,
      Event.isConnectCompleteSend]
  | some a =>
    simp [netdClientConnectTail, libcConnect, hno a rfl,
      List.filter_append, Event.isConnectCompleteSend]

/-- With the fwmark guard false, the tail of the wrapped connect appends
exactly one event: the call to the original connect primitive. -/
theorem netdClientConnectTail_false_events (env : Env) (sockfd : Int)
    (addr : Option Sockaddr) (s : St) :
    (netdClientConnectTail env sockfd addr false s).2.events
      = s.events ++ [Event.libcConnectCall sockfd] := by
  cases addr <;> simp [netdClientConnectTail, libcConnect]

/-- Claim C2: a wrapped connect whose destination qualifies for marking
(non-negative fd, non-null address, qualifying family) and whose
`ON_CONNECT` exchange returns a nonzero status returns -1 with errno set
to the negation of that status, and the original connect primitive is
never invoked (the trace gains no connect-primitive call). -/
theorem netdClientConnect_onConnectFailure (env : Env) (sockfd : Int)
    (a : Sockaddr) (s : St) (hfd : 0 ≤ sockfd)
    (hq : env.shouldSetFwmark a.sa_family = true)
    (herr : env.sendStatus ⟨CommandId.onConnect, 0, 0⟩ sockfd ≠ 0) :
    (netdClientConnect env sockfd (some a) s).1 = -1 ∧
    (netdClientConnect env sockfd (some a) s).2.errno
      = -(env.sendStatus ⟨CommandId.onConnect, 0, 0⟩ sockfd) ∧
    (netdClientConnect env sockfd (some a) s).2.events.filter
        Event.isLibcConnect
      = s.events.filter Event.isLibcConnect := by
  simp [netdClientConnect, connectShouldSetFwmark, hfd, hq, fwSend, herr,
    List.filter_append, Event.isLibcConnect]

/-- Witness for C2: fd 5, IPv4 destination, denying daemon. -/
theorem netdClientConnect_onConnectFailure_witness :
    (netdClientConnect envDeny 5 (some ⟨2⟩) st0).1 = -1 ∧
    (netdClientConnect envDeny 5 (some ⟨2⟩) st0).2.errno
      = -(envDeny.sendStatus ⟨CommandId.onConnect, 0, 0⟩ 5) ∧
    (netdClientConnect envDeny 5 (some ⟨2⟩) st0).2.events.filter
        Event.isLibcConnect
      = st0.events.filter Event.isLibcConnect :=
  netdClientConnect_onConnectFailure envDeny 5 ⟨2⟩ st0
    (by decide) (by decide) (by decide)

/-- Claim C5: whenever the wrapped connect reaches the real connect
primitive (that is, whenever a sent `ON_CONNECT` exchange did not fail),
the caller observes exactly the real primitive's return value and errno;
the `ON_CONNECT_COMPLETE` telemetry status and any errno it leaves behind
are discarded. -/
theorem netdClientConnect_passthroughRealConnect (env : Env)
    (sockfd : Int) (addr : Option Sockaddr) (s : St)
    (hok : connectShouldSetFwmark env sockfd addr = true →
      env.sendStatus ⟨CommandId.onConnect, 0, 0⟩ sockfd = 0) :
    (netdClientConnect env sockfd addr s).1 = env.libcConnectRet ∧
    (netdClientConnect env sockfd addr s).2.errno
      = env.libcConnectErrno := by
  cases hset : connectShouldSetFwmark env sockfd addr with
  | false =>
    simp only [netdClientConnect, hset, Bool.false_eq_true, if_false]
    exact netdClientConnectTail_result env sockfd addr false s
  | true =>
    simp only [netdClientConnect, hset, if_true, fwSend, hok hset,
      ne_eq, not_true_eq_false, if_false]
    apply netdClientConnectTail_result

/-- Witness for C5: the daemon accepts `ON_CONNECT` but fails the
telemetry with -7 and clobbers errno, yet the caller sees the real
connect's result 0 and errno 111. -/
theorem netdClientConnect_passthroughRealConnect_witness :
    (netdClientConnect envTele 5 (some ⟨2⟩) st0).1
      = envTele.libcConnectRet ∧
    (netdClientConnect envTele 5 (some ⟨2⟩) st0).2.errno
      = envTele.libcConnectErrno :=
  netdClientConnect_passthroughRealConnect envTele 5 (some ⟨2⟩) st0
    (fun _ => by decide)

/-- Claim C8: a wrapped connect whose real connection attempt succeeds
and whose destination family does not qualify for completion reporting
performs no `ON_CONNECT_COMPLETE` exchange at all. -/
theorem netdClientConnect_noCompletionReport (env : Env) (sockfd : Int)
    (addr : Option Sockaddr) (s : St) (hsucc : env.libcConnectRet = 0)
    (hno : ∀ a, addr = some a →
      env.shouldReportConnectComplete a.sa_family = false) :
    (netdClientConnect env sockfd addr s).2.events.filter
        Event.isConnectCompleteSend
      = s.events.filter Event.isConnectCompleteSend := by
  cases hset : connectShouldSetFwmark env sockfd addr with
  | false =>
    simp only [netdClientConnect, hset, Bool.false_eq_true, if_false]
    exact netdClientConnectTail_noCompletion env sockfd addr false s hno
  | true =>
    by_cases h0 : env.sendStatus ⟨CommandId.onConnect, 0, 0⟩ sockfd = 0
    · simp only [netdClientConnect, hset, if_true, fwSend, h0, ne_eq,
        not_true_eq_false, if_false]
      have h := netdClientConnectTail_noCompletion env sockfd addr true
        { s with
          errno := env.sendErrno
          events := s.events
            ++ [Event.send ⟨CommandId.onConnect, 0, 0⟩ sockfd none] } hno
      simpa [List.filter_append, Event.isConnectCompleteSend] using h
    · simp [netdClientConnect, hset, fwSend, h0, List.filter_append,
        Event.isConnectCompleteSend]

/-- Witness for C8: IPv4 destination with completion reporting switched
off; the trace carries no completion exchange. -/
theorem netdClientConnect_noCompletionReport_witness :
    (netdClientConnect
        { envTele with shouldReportConnectComplete := fun _ => false }
        5 (some ⟨2⟩) st0).2.events.filter Event.isConnectCompleteSend
      = st0.events.filter Event.isConnectCompleteSend :=
  netdClientConnect_noCompletionReport
    { envTele with shouldReportConnectComplete := fun _ => false }
    5 (some ⟨2⟩) st0 (by decide) (fun _ _ => rfl)

/-- Claim C10: a wrapped connect with a negative descriptor or a null
address performs no daemon exchange of any kind and simply forwards to
the original connect primitive, passing its return value and errno
through unchanged (it is not rejected with a bad-descriptor error). -/
theorem netdClientConnect_invalidArgsPassthrough (env : Env)
    (sockfd : Int) (addr : Option Sockaddr) (s : St)
    (h : sockfd < 0 ∨ addr = none) :
    (netdClientConnect env sockfd addr s).1 = env.libcConnectRet ∧
    (netdClientConnect env sockfd addr s).2.errno
      = env.libcConnectErrno ∧
    (netdClientConnect env sockfd addr s).2.events.filter Event.isSend
      = s.events.filter Event.isSend ∧
    Event.libcConnectCall sockfd
      ∈ (netdClientConnect env sockfd addr s).2.events := by
  have hset : connectShouldSetFwmark env sockfd addr = false := by
    rcases h with h | h
    · have : ¬ 0 ≤ sockfd := by omega
      simp [connectShouldSetFwmark, this]
    · simp [connectShouldSetFwmark, h]
  have hres := netdClientConnectTail_result env sockfd addr false s
  have hev := netdClientConnectTail_false_events env sockfd addr s
  simp only [netdClientConnect, hset, Bool.false_eq_true, if_false]
  refine ⟨hres.1, hres.2, ?_, ?_⟩
  · simp [hev, List.filter_append, Event.isSend]
  · simp [hev]

/-- Witness for C10: fd -1 and a null address forward to the primitive
(result -1, errno 111) with no daemon exchange. -/
theorem netdClientConnect_invalidArgsPassthrough_witness :
    (netdClientConnect envDeny (-1) none st0).1 = envDeny.libcConnectRet ∧
    (netdClientConnect envDeny (-1) none st0).2.errno
      = envDeny.libcConnectErrno ∧
    (netdClientConnect envDeny (-1) none st0).2.events.filter Event.isSend
      = st0.events.filter Event.isSend ∧
    Event.libcConnectCall (-1)
      ∈ (netdClientConnect envDeny (-1) none st0).2.events :=
  netdClientConnect_invalidArgsPassthrough envDeny (-1) none st0
    (Or.inl (by decide))

/-- Claim C6: after a successful accept, the wrapped accept takes the
address family from the caller-supplied buffer, or queries it from the
new descriptor when no buffer was supplied; in either case, when the
family qualifies for marking and the `ON_ACCEPT` exchange returns a
nonzero status, the accepted descriptor is closed and the call returns
-1 with errno set to the negation of that status. -/
theorem netdClientAccept4_onAcceptFailure (env : Env) (sockfd : Int)
    (addr : Option Sockaddr) (s : St) (hfd : 0 ≤ env.libcAccept4Ret) :
    (∀ a, addr = some a → env.shouldSetFwmark a.sa_family = true →
      env.sendStatus ⟨CommandId.onAccept, 0, 0⟩ env.libcAccept4Ret ≠ 0 →
      (netdClientAccept4 env sockfd addr s).1 = -1 ∧
      (netdClientAccept4 env sockfd addr s).2.errno
        = -(env.sendStatus ⟨CommandId.onAccept, 0, 0⟩ env.libcAccept4Ret) ∧
      env.libcAccept4Ret
        ∉ (netdClientAccept4 env sockfd addr s).2.openFds) ∧
    (∀ family, addr = none →
      env.soDomain env.libcAccept4Ret = Except.ok family →
      env.shouldSetFwmark family = true →
      env.sendStatus ⟨CommandId.onAccept, 0, 0⟩ env.libcAccept4Ret ≠ 0 →
      (netdClientAccept4 env sockfd addr s).1 = -1 ∧
      (netdClientAccept4 env sockfd addr s).2.errno
        = -(env.sendStatus ⟨CommandId.onAccept, 0, 0⟩ env.libcAccept4Ret) ∧
      env.libcAccept4Ret
        ∉ (netdClientAccept4 env sockfd addr s).2.openFds) := by
  have hne : ¬ env.libcAccept4Ret = -1 := by omega
  constructor
  · rintro a rfl hq herr
    simp [netdClientAccept4, netdClientAccept4.accept4Mark, libcAccept4,
      fwSend, closeFdAndSetErrno, St.close, hne, hq, herr,
      List.mem_filter]
  · rintro family rfl hdom hq herr
    simp [netdClientAccept4, netdClientAccept4.accept4Mark, libcAccept4,
      fwSend, closeFdAndSetErrno, St.close, hne, hdom, hq, herr,
      List.mem_filter]

/-- Witness for C6: no caller buffer, `SO_DOMAIN` reports IPv4, the
daemon denies `ON_ACCEPT` with -13; the accepted descriptor 4 is closed. -/
theorem netdClientAccept4_onAcceptFailure_witness :
    (netdClientAccept4 envDeny 5 none st0).1 = -1 ∧
    (netdClientAccept4 envDeny 5 none st0).2.errno
      = -(envDeny.sendStatus ⟨CommandId.onAccept, 0, 0⟩
          envDeny.libcAccept4Ret) ∧
    envDeny.libcAccept4Ret ∉ (netdClientAccept4 envDeny 5 none st0).2.openFds :=
  (netdClientAccept4_onAcceptFailure envDeny 5 none st0 (by decide)).2
    2 rfl rfl (by decide) (by decide)

end NetdClient
